import Mathlib

/-!
Verification of the rstudio-tier session orchestrator.

Shallow embedding of the two backend APIs:
  * `k3s/api/rpod_api_k8s.py` — kubernetes backend (pods + NodePort services),
  * `back-rpod-setup/api/rpod_api.py` — single-host podman backend.

Cluster / container-engine state is modelled explicitly (lists of pods,
services, containers, existing host paths); each HTTP endpoint becomes a
pure function from that state to a response value plus the successor state,
together with the trace of backend calls it issued.
-/

namespace Rpod

/-! ## Configuration constants (module-level globals of `rpod_api_k8s.py`) -/

def NODEPORT_START : Nat := 30810
def NODEPORT_END : Nat := 30900

/-- 12 hours, in seconds. -/
def MAX_SESSION_DURATION : Nat := 12 * 60 * 60

def PROJECT_CENTER_PATH : String := "/opt/project_center_mirror"
def USER_HOMES_PATH : String := "/opt/user_homes"
def SHARED_RLIB_PATH : String := "/opt/shared-r-library"
def NODE_IP : String := "100.64.0.7"

/-! ## Data model -/

/-- One project grant from a user's config: `base` project name plus
subfolder names (the `projects` entries of `users.yaml`). -/
structure Project where
  base : String
  folders : List String
deriving DecidableEq, Repr

/-- A user record from `users.yaml`; absent keys are `none` and the
defaults of `launch` (`user.get(...)`) are applied at the call sites. -/
structure UserCfg where
  tier : Option String
  home : Option String
  password : Option String
  projects : List Project
deriving DecidableEq, Repr

/-- One port entry of a kubernetes service spec. -/
structure SvcPort where
  node_port : Option Nat
deriving DecidableEq, Repr

/-- A kubernetes service as far as the API reads it. -/
structure Service where
  name : String
  svcType : String
  ports : List SvcPort
deriving DecidableEq, Repr

/-- A kubernetes pod as far as the API reads it: name, the two labels it
queries, the phase and the backend-reported age in seconds. -/
structure Pod where
  name : String
  appLabel : String
  userLabel : Option String
  phase : String
  age : Nat
deriving DecidableEq, Repr

/-- Cluster state seen through the CoreV1 API.  `svcListFails` models an
`ApiException` from `list_namespaced_service` (control plane unreachable). -/
structure K8sState where
  pods : List Pod
  services : List Service
  users : List (String × UserCfg)
  svcListFails : Bool
deriving DecidableEq, Repr

/-- `HTTPException(status_code, detail)`. -/
inductive HErr where
  | http (status : Nat) (detail : String)
deriving DecidableEq, Repr

def HErr.statusOf : HErr → Nat
  | .http s _ => s

def HErr.detailOf : HErr → String
  | .http _ d => d

/-! ## Naming helpers -/

/-- `get_pod_name`: the derived workload name. -/
def get_pod_name (username : String) : String := "rstudio-" ++ username

/-- `get_service_name`: the derived exposure name. -/
def get_service_name (username : String) : String := "rstudio-svc-" ++ username

/-! ## Port allocator -/

/-- `get_used_nodeports`: walks all services, collecting `node_port` of every
port of every `NodePort` service.  On `ApiException` the source logs the
failure and returns the empty list. -/
def get_used_nodeports (s : K8sState) : List Nat :=
  if s.svcListFails then []
  else
    (s.services.filter (fun svc => svc.svcType == "NodePort")).flatMap
      (fun svc => svc.ports.filterMap (fun p => p.node_port))

/-- The scan loop of `allocate_nodeport`: try `count` consecutive ports
starting at `start`, returning the first one not in `used`. -/
def find_free (used : List Nat) : Nat → Nat → Option Nat
  | _, 0 => none
  | start, count + 1 =>
      if start ∈ used then find_free used (start + 1) count else some start

/-- `allocate_nodeport`: first port of `[NODEPORT_START, NODEPORT_END]` not
currently used; `HTTPException(507)` when the whole range is taken. -/
def allocate_nodeport (s : K8sState) : Except HErr Nat :=
  match find_free (get_used_nodeports s) NODEPORT_START
      (NODEPORT_END + 1 - NODEPORT_START) with
  | some p => .ok p
  | none => .error (HErr.http 507 "No available NodePorts")

/-! ## Workload spec builder (project volumes and mounts) -/

/-- A `V1Volume` with a host path source, as built by the API. -/
structure Volume where
  name : String
  hostPath : String
  hostPathType : String
deriving DecidableEq, Repr

/-- A `V1VolumeMount`. -/
structure VolumeMount where
  name : String
  mountPath : String
  read_only : Bool
deriving DecidableEq, Repr

/-- Python `str.replace` for a single-character pattern: every occurrence
of `src` becomes the character list `tgt` (empty for deletion). -/
def replace_chars (src : Char) (tgt : List Char) (s : List Char) : List Char :=
  s.flatMap (fun c => if c = src then tgt else [c])

/-- `base.lower().replace(" ", "-").replace(".", "")` -/
def sanitize_base (base : String) : String :=
  ⟨replace_chars '.' [] (replace_chars ' ' ['-'] (base.data.map Char.toLower))⟩

/-- `folder.replace(' ', '-').replace('.', '-').lower()` -/
def sanitize_folder (folder : String) : String :=
  ⟨(replace_chars '.' ['-'] (replace_chars ' ' ['-'] folder.data)).map Char.toLower⟩

/-- The sanitized DNS-1123 volume name,
`f"proj-\x7bbase_safe\x7d-\x7bidx\x7d-\x7bfolder_safe\x7d"`. -/
def mk_volume_name (base : String) (idx : Nat) (folder : String) : String :=
  "proj-" ++ sanitize_base base ++ "-" ++ toString idx ++ "-" ++
    sanitize_folder folder

/-- The volume appended for one `(base, idx, folder)` triple. -/
def project_volume (base : String) (idx : Nat) (folder : String) : Volume :=
  { name := mk_volume_name base idx folder,
    hostPath := PROJECT_CENTER_PATH ++ "/" ++ base ++ "/" ++ folder,
    hostPathType := "Directory" }

/-- The volume mount appended for one `(base, idx, folder)` triple:
read-write at `/project-center/<base>/<folder>`. -/
def project_mount (base : String) (idx : Nat) (folder : String) : VolumeMount :=
  { name := mk_volume_name base idx folder,
    mountPath := "/project-center/" ++ base ++ "/" ++ folder,
    read_only := false }

/-- Body of the inner `for folder in folders` loop. -/
def proj_step (base : String) (idx : Nat)
    (acc : List Volume × List VolumeMount) (folder : String) :
    List Volume × List VolumeMount :=
  (acc.1 ++ [project_volume base idx folder],
   acc.2 ++ [project_mount base idx folder])

/-- Body of the outer `for idx, project in enumerate(projects)` loop,
with the `if not base or not folders: continue` guard. -/
def proj_outer_step (acc : List Volume × List VolumeMount)
    (ip : Nat × Project) : List Volume × List VolumeMount :=
  if ip.2.base = "" ∨ ip.2.folders = [] then acc
  else ip.2.folders.foldl (proj_step ip.2.base ip.1) acc

/-- `build_project_volumes_and_mounts`. -/
def build_project_volumes_and_mounts (projects : List Project) :
    List Volume × List VolumeMount :=
  projects.enum.foldl proj_outer_step ([], [])

/-! ## K8s backend operations -/

/-- `users.get(username)` on the loaded config. -/
def lookup_user (users : List (String × UserCfg)) (username : String) :
    Option UserCfg :=
  (users.find? (fun kv => kv.1 == username)).map (fun kv => kv.2)

/-- `pod_exists`: `read_namespaced_pod` on the derived name; `none` models
the 404 / `exists: False` branch. -/
def pod_exists (s : K8sState) (username : String) : Option Pod :=
  s.pods.find? (fun p => p.name == get_pod_name username)

/-- `get_user_nodeport`: read the user's service; the bound node port of the
first port entry when it is a `NodePort` service, else `None`. -/
def get_user_nodeport (s : K8sState) (username : String) : Option Nat :=
  match s.services.find? (fun svc => svc.name == get_service_name username) with
  | none => none
  | some svc =>
      if svc.svcType == "NodePort" then
        match svc.ports with
        | [] => none
        | p :: _ => p.node_port
      else none

/-- `delete_pod` (absent is success). -/
def delete_pod (s : K8sState) (username : String) : K8sState :=
  { s with pods := s.pods.filter (fun p => p.name != get_pod_name username) }

/-- `delete_service` (absent is success). -/
def delete_service (s : K8sState) (username : String) : K8sState :=
  { s with services :=
      s.services.filter (fun svc => svc.name != get_service_name username) }

/-- The pod object registered by `create_namespaced_pod`: derived name,
labels `app=rstudio` and `user=<username>`, freshly started. -/
def created_pod (username : String) : Pod :=
  { name := get_pod_name username, appLabel := "rstudio",
    userLabel := some username, phase := "Pending", age := 0 }

/-- `create_pod` as a state transformer (success path). -/
def create_pod (s : K8sState) (username : String) : K8sState :=
  { s with pods := s.pods ++ [created_pod username] }

/-- `create_service`: a 409 conflict (service already exists) is tolerated
and leaves the existing service in place. -/
def create_service (s : K8sState) (username : String) (port : Nat) : K8sState :=
  if (s.services.find? (fun svc => svc.name == get_service_name username)).isSome
  then s
  else { s with services := s.services ++
      [{ name := get_service_name username, svcType := "NodePort",
         ports := [{ node_port := some port }] }] }

/-! ## The `/launch` endpoint (k8s backend) -/

/-- One call issued against the cluster API, recorded for tracing. -/
inductive BackendCall where
  | createPod (name : String)
  | createService (name : String) (port : Nat)
  | deletePod (name : String)
  | deleteService (name : String)
deriving DecidableEq, Repr

/-- A JSON response from `/launch`, plus the trace of backend calls made. -/
structure LaunchResult where
  ok : Bool
  status : Nat
  redirect : Option String
  port : Option Nat
  reuse : Option Bool
  error : Option String
  calls : List BackendCall
deriving DecidableEq, Repr

/-- The `try` block of `launch`: pick the port (`existing_port` if truthy,
else `allocate_nodeport()`), then create pod and service.  An
`HTTPException` inside the block is caught by `except Exception` and
rendered as a status-500 JSON error from `str(e)`. -/
def k8s_fresh (s : K8sState) (username : String) (existing_port : Option Nat)
    (calls : List BackendCall) : LaunchResult × K8sState :=
  let ported : Except HErr Nat :=
    match existing_port with
    | some p => .ok p
    | none => allocate_nodeport s
  match ported with
  | .error e =>
      ({ ok := false, status := 500, redirect := none, port := none,
         reuse := none,
         error := some (toString e.statusOf ++ ": " ++ e.detailOf),
         calls := calls }, s)
  | .ok port =>
      let s1 := create_pod s username
      let s2 := create_service s1 username port
      ({ ok := true, status := 200,
         redirect := some ("http://" ++ NODE_IP ++ ":" ++ toString port),
         port := some port, reuse := some false, error := none,
         calls := calls ++ [.createPod (get_pod_name username),
                            .createService (get_service_name username) port] },
       s2)

/-- `launch` (k8s backend). -/
def k8s_launch (s : K8sState) (username : String) : LaunchResult × K8sState :=
  match lookup_user s.users username with
  | none =>
      ({ ok := false, status := 404, redirect := none, port := none,
         reuse := none, error := some ("User " ++ username ++ " not found"),
         calls := [] }, s)
  | some _user =>
      let existing_port := get_user_nodeport s username
      match pod_exists s username with
      | some pod =>
          if pod.phase == "Running" && existing_port.isSome then
            ({ ok := true, status := 200,
               redirect := some ("http://" ++ NODE_IP ++ ":" ++
                 toString (existing_port.getD 0)),
               port := existing_port, reuse := some true, error := none,
               calls := [] }, s)
          else
            let s1 := delete_pod s username
            if existing_port.isSome then
              k8s_fresh (delete_service s1 username) username existing_port
                [.deletePod (get_pod_name username),
                 .deleteService (get_service_name username)]
            else
              k8s_fresh s1 username existing_port
                [.deletePod (get_pod_name username)]
      | none => k8s_fresh s username existing_port []

/-! ## The session reaper (`cleanup_old_sessions`, one cycle) -/

/-- The service name string built inside the reaper,
`f"rstudio-svc-\x7busername\x7d"` with `username` from the `user` label
(default `"unknown"`). -/
def reap_svc_name (pod : Pod) : String :=
  "rstudio-svc-" ++ pod.userLabel.getD "unknown"

/-- What one reaper cycle did to one listed pod. -/
inductive ReapEvent where
  | reaped (podName svcName : String)
  | reapPartial (podName : String)
  | reapFailed (podName : String)
  | warned (username : String)
  | untouched
deriving DecidableEq, Repr

/-- The body of `for pod in pods.items` in `cleanup_old_sessions`.
`podFails` / `svcFails` model the delete calls raising (caught by the
per-pod `try`/`except`): when the pod delete raises nothing is removed;
when it succeeds but the service delete raises, only the pod is gone. -/
def reap_step (podFails svcFails : String → Bool) (pod : Pod) : ReapEvent :=
  if pod.age > MAX_SESSION_DURATION then
    if podFails pod.name then .reapFailed pod.name
    else if svcFails (reap_svc_name pod) then .reapPartial pod.name
    else .reaped pod.name (reap_svc_name pod)
  else if pod.age > MAX_SESSION_DURATION - 1800 then
    .warned (pod.userLabel.getD "unknown")
  else .untouched

/-- One full reaper cycle: list pods with label `app=rstudio`, handle each
one inside its own `try`/`except` so the loop always continues. -/
def cleanup_cycle (podFails svcFails : String → Bool) (pods : List Pod) :
    List ReapEvent :=
  (pods.filter (fun p => p.appLabel == "rstudio")).map
    (reap_step podFails svcFails)

end Rpod

namespace Rpod.Podman

/-! ## Podman backend (`back-rpod-setup/api/rpod_api.py`) -/

def MOCK : String := "/home/arcinstitute/mockdir"
def HOST_IP : String := "100.65.42.6"
def IMAGE_NAME : String := "rstudio-tier"

/-- `TIER_PORTS.get(tier, 8810)`. -/
def TIER_PORTS (tier : String) : Nat :=
  if tier == "tier1" then 8810
  else if tier == "tier2" then 8820
  else if tier == "tier3" then 8830
  else 8810

/-- A podman container as read through the libpod API. -/
structure Container where
  name : String
  status : String
deriving DecidableEq, Repr

/-- Engine plus host state: live containers, the set of host paths that
exist, and the parsed `users.yaml`. -/
structure PodmanState where
  containers : List Container
  fs : List String
  users : List (String × Rpod.UserCfg)
deriving DecidableEq, Repr

/-- A bind mount entry as produced by `bind_mount`. -/
structure Mount where
  source : String
  destination : String
  options : List String
deriving DecidableEq, Repr

/-- `bind_mount`. -/
def bind_mount (source destination : String) (read_only : Bool) : Mount :=
  { source := source, destination := destination,
    options := if read_only then ["rbind", "ro"] else ["rbind"] }

structure PortMapping where
  container_port : Nat
  host_port : Nat
deriving DecidableEq, Repr

/-- The create spec produced by `build_podman_spec`. -/
structure PodmanSpec where
  image : String
  name : String
  env : List (String × String)
  remove : Bool
  mounts : List Mount
  portmappings : List PortMapping
deriving DecidableEq, Repr

/-- `build_podman_spec`. -/
def build_podman_spec (image name : String) (env : List (String × String))
    (mounts : List Mount) (port : Nat) : PodmanSpec :=
  { image := image, name := name, env := env, remove := true,
    mounts := mounts,
    portmappings := [{ container_port := 8787, host_port := port }] }

/-- Inspect a container by name (404 when absent). -/
def container_lookup (s : PodmanState) (name : String) : Option Container :=
  s.containers.find? (fun c => c.name == name)

/-- `ensure_user_home`: `os.makedirs(path, exist_ok=True)`. -/
def ensure_user_home (s : PodmanState) (path : String) : PodmanState :=
  if path ∈ s.fs then s else { s with fs := s.fs ++ [path] }

/-- `validate_required_paths`: raises `HTTPException(500)` naming the
missing paths when any of them does not exist. -/
def validate_required_paths (fs : List String) (paths : List String) :
    Except String Unit :=
  let missing := paths.filter (fun p => !(fs.contains p))
  if missing.isEmpty then .ok ()
  else .error ("Missing host path(s): " ++ String.intercalate ", " missing)

/-- `podman_delete_if_exists`: absent → nothing; running → schedule a
delayed `podman_delete_if_stopped` (returned in the second component) and
leave the container alone; otherwise force-remove it now. -/
def podman_delete_if_exists (s : PodmanState) (name : String) :
    PodmanState × List String :=
  match container_lookup s name with
  | none => (s, [])
  | some c =>
      if c.status == "running" then (s, [name])
      else ({ s with containers := s.containers.filter (fun d => d.name != name) },
            [])

/-- Result of `podman_create_and_start`: outcome (error text or container
id, modelled by its name), how many create requests were posted, which
names got a deferred deletion scheduled, and the engine state after. -/
structure PodmanCreateResult where
  outcome : Except String String
  attempts : Nat
  deferred : List String
  state : PodmanState
deriving Repr

/-- `podman_create_and_start`: the create call name-collides exactly when a
container with `spec.name` exists (any status); on collision it runs
`podman_delete_if_exists` and retries the create exactly once, and a retry
that collides again raises (`r.raise_for_status()`). -/
def podman_create_and_start (s : PodmanState) (spec : PodmanSpec) :
    PodmanCreateResult :=
  match container_lookup s spec.name with
  | some _ =>
      let cleaned := podman_delete_if_exists s spec.name
      match container_lookup cleaned.1 spec.name with
      | some _ =>
          { outcome := .error ("name " ++ spec.name ++ " already in use"),
            attempts := 2, deferred := cleaned.2, state := cleaned.1 }
      | none =>
          { outcome := .ok spec.name, attempts := 2, deferred := cleaned.2,
            state := { cleaned.1 with containers := cleaned.1.containers ++
              [{ name := spec.name, status := "running" }] } }
  | none =>
      { outcome := .ok spec.name, attempts := 1, deferred := [],
        state := { s with containers := s.containers ++
          [{ name := spec.name, status := "running" }] } }

/-- A JSON response from the podman `/launch`, with instrumentation. -/
structure PodmanLaunchResult where
  ok : Bool
  status : Nat
  redirect : Option String
  port : Option Nat
  reuse : Option Bool
  error : Option String
  createAttempts : Nat
  deferred : List String
deriving DecidableEq, Repr

/-- `launch` (podman backend).  Note the source hard-codes `"reuse": True`
in its success response, and the validation failure is raised outside the
`try` so FastAPI renders the `HTTPException(500)` itself. -/
def launch (s : PodmanState) (username : String) :
    PodmanLaunchResult × PodmanState :=
  match Rpod.lookup_user s.users username with
  | none =>
      ({ ok := false, status := 404, redirect := none, port := none,
         reuse := none, error := some ("User " ++ username ++ " not found"),
         createAttempts := 0, deferred := [] }, s)
  | some user =>
      let tier := user.tier.getD "tier1"
      let port := TIER_PORTS tier
      let user_home := user.home.getD ("/home/" ++ username)
      let cname := "rstudio-" ++ username
      let src_project_center := MOCK ++ "/Project Center"
      let src_user_home := MOCK ++ "/user_home/" ++ username
      let src_shared_rlib := MOCK ++ "/shared-r-library"
      let s1 := ensure_user_home s src_user_home
      match validate_required_paths s1.fs [src_project_center, src_shared_rlib] with
      | .error detail =>
          ({ ok := false, status := 500, redirect := none, port := none,
             reuse := none, error := some detail,
             createAttempts := 0, deferred := [] }, s1)
      | .ok _ =>
          let mounts := [bind_mount src_project_center "/mockdir/Project Center" true,
                         bind_mount src_user_home user_home false,
                         bind_mount src_shared_rlib "/usr/local/lib/R/site-library" true]
          let env_vars := [("USER", username),
                           ("PASSWORD", user.password.getD "arc_default_123"),
                           ("TIER", tier), ("HOME", user_home)]
          let spec := build_podman_spec ("localhost/" ++ IMAGE_NAME) cname
            env_vars mounts port
          let cr := podman_create_and_start s1 spec
          match cr.outcome with
          | .ok _cid =>
              ({ ok := true, status := 200,
                 redirect := some ("http://" ++ HOST_IP ++ ":" ++ toString port),
                 port := some port, reuse := some true, error := none,
                 createAttempts := cr.attempts, deferred := cr.deferred },
               cr.state)
          | .error e =>
              ({ ok := false, status := 500, redirect := none, port := none,
                 reuse := none, error := some e,
                 createAttempts := cr.attempts, deferred := cr.deferred },
               cr.state)

end Rpod.Podman

namespace Rpod

/-! ## Sample cluster states used by the concrete-input theorems -/

/-- A minimal `users.yaml` entry. -/
def userTier1 : UserCfg :=
  { tier := some "tier1", home := none, password := none, projects := [] }

def alicePodRunning : Pod :=
  { name := "rstudio-alice", appLabel := "rstudio", userLabel := some "alice",
    phase := "Running", age := 3600 }

def aliceSvc : Service :=
  { name := "rstudio-svc-alice", svcType := "NodePort",
    ports := [{ node_port := some 30815 }] }

/-- Alice has a running pod and a bound NodePort service. -/
def reuseState : K8sState :=
  { pods := [alicePodRunning], services := [aliceSvc],
    users := [("alice", userTier1)], svcListFails := false }

/-- Alice is configured but has no pod and no service. -/
def freshState : K8sState :=
  { pods := [], services := [], users := [("alice", userTier1)],
    svcListFails := false }

/-- Alice's pod is running but no service (hence no bound port) exists. -/
def runningNoSvcState : K8sState :=
  { pods := [alicePodRunning], services := [],
    users := [("alice", userTier1)], svcListFails := false }

/-- Exactly one NodePort (the lowest of the range) is taken. -/
def oneBusyPortState : K8sState :=
  { pods := [],
    services := [{ name := "rstudio-svc-zed", svcType := "NodePort",
                   ports := [{ node_port := some 30810 }] }],
    users := [], svcListFails := false }

/-- Same exposure as `oneBusyPortState`, but listing services raises. -/
def listFailState : K8sState :=
  { pods := [],
    services := [{ name := "rstudio-svc-zed", svcType := "NodePort",
                   ports := [{ node_port := some 30810 }] }],
    users := [], svcListFails := true }

/-- Every NodePort of the 30810-30900 range is held by some other user's
service; bob is configured but has neither pod nor service. -/
def allPortsBusyState : K8sState :=
  { pods := [],
    services := (List.range 91).map (fun i =>
      { name := "rstudio-svc-u" ++ toString i, svcType := "NodePort",
        ports := [{ node_port := some (30810 + i) }] }),
    users := [("bob", userTier1)], svcListFails := false }

/-- A session 50000 s old: past the 43200 s lifetime. -/
def expiredPod : Pod :=
  { name := "rstudio-carl", appLabel := "rstudio", userLabel := some "carl",
    phase := "Running", age := 50000 }

/-- A session 43000 s old: inside the 30-minute warning band. -/
def warnBandPod : Pod :=
  { name := "rstudio-dana", appLabel := "rstudio", userLabel := some "dana",
    phase := "Running", age := 43000 }

/-- One grant with an empty base (skipped) and one real grant. -/
def demoProjects : List Project :=
  [{ base := "", folders := ["x"] }, { base := "Gene Lab", folders := ["data.raw"] }]

/-- A host filesystem on which neither shared root of the k8s configuration
exists. -/
def noRootsHostFs : List String := ["/opt/user_homes/alice"]

/-- Volumes contributed by one enumerated grant (loop-free form of the
outer loop body). -/
def project_chunk_vols (ip : Nat × Project) : List Volume :=
  if ip.2.base = "" ∨ ip.2.folders = [] then []
  else ip.2.folders.map (project_volume ip.2.base ip.1)

/-- Mounts contributed by one enumerated grant. -/
def project_chunk_mounts (ip : Nat × Project) : List VolumeMount :=
  if ip.2.base = "" ∨ ip.2.folders = [] then []
  else ip.2.folders.map (project_mount ip.2.base ip.1)

end Rpod

namespace Rpod.Podman

/-- Both required host roots exist; alice is configured, no container. -/
def podmanFreshState : PodmanState :=
  { containers := [],
    fs := [MOCK ++ "/Project Center", MOCK ++ "/shared-r-library"],
    users := [("alice", Rpod.userTier1)] }

/-- Bob's container is already running when bob launches again. -/
def runningCollisionState : PodmanState :=
  { containers := [{ name := "rstudio-bob", status := "running" }],
    fs := [MOCK ++ "/Project Center", MOCK ++ "/shared-r-library"],
    users := [("bob", Rpod.userTier1)] }

/-- A stopped container holds bob's derived name. -/
def stoppedCollisionState : PodmanState :=
  { containers := [{ name := "rstudio-bob", status := "exited" }],
    fs := [], users := [] }

/-- A create spec for bob's derived container name. -/
def demoSpec : PodmanSpec :=
  build_podman_spec "localhost/rstudio-tier" "rstudio-bob" [] [] 8810

/-- Neither required host root exists. -/
def missingPathState : PodmanState :=
  { containers := [], fs := [], users := [("alice", Rpod.userTier1)] }

end Rpod.Podman

namespace Rpod

/-! # Helper lemmas -/

/-- The scan loop returns a port inside its window, free, and least among
the free ports of the window. -/
theorem find_free_some (used : List Nat) :
    ∀ len start p, find_free used start len = some p →
      start ≤ p ∧ p < start + len ∧ p ∉ used ∧
        ∀ q, start ≤ q → q < p → q ∈ used := by
  intro len
  induction len with
  | zero => intro start p h; simp [find_free] at h
  | succ n ih =>
      intro start p h
      rw [find_free] at h
      by_cases hm : start ∈ used
      · simp only [hm, if_true] at h
        obtain ⟨h1, h2, h3, h4⟩ := ih (start + 1) p h
        refine ⟨by omega, by omega, h3, ?_⟩
        intro q hq1 hq2
        rcases Nat.eq_or_lt_of_le hq1 with rfl | hlt
        · exact hm
        · exact h4 q hlt hq2
      · simp only [hm, if_false] at h
        cases h
        exact ⟨le_refl _, by omega, hm, fun q hq1 hq2 => absurd hq1 (by omega)⟩

/-- The scan loop fails exactly when every port of its window is used. -/
theorem find_free_none (used : List Nat) :
    ∀ len start, find_free used start len = none ↔
      ∀ q, start ≤ q → q < start + len → q ∈ used := by
  intro len
  induction len with
  | zero => intro start; simp [find_free]; intro q h1 h2; omega
  | succ n ih =>
      intro start
      rw [find_free]
      by_cases hm : start ∈ used
      · simp only [hm, if_true, ih]
        constructor
        · intro h q hq1 hq2
          rcases Nat.eq_or_lt_of_le hq1 with rfl | hlt
          · exact hm
          · exact h q hlt (by omega)
        · intro h q hq1 hq2
          exact h q (by omega) (by omega)
      · simp only [hm, if_false]
        constructor
        · intro h; cases h
        · intro h
          exact absurd (h start (le_refl _) (by omega)) hm

/-- A running pod with a bound service port makes `launch` take the reuse
fast path: same port, `reuse=true`, no backend calls, state unchanged. -/
theorem k8s_launch_reuse_path (s : K8sState) (u : String) (pod : Pod) (p : Nat)
    (hu : lookup_user s.users u ≠ none)
    (hpod : pod_exists s u = some pod)
    (hphase : pod.phase = "Running")
    (hport : get_user_nodeport s u = some p) :
    (k8s_launch s u).1.port = some p ∧ (k8s_launch s u).1.reuse = some true ∧
    (k8s_launch s u).2 = s ∧ (k8s_launch s u).1.calls = [] := by
  obtain ⟨user, hu2⟩ := Option.ne_none_iff_exists'.mp hu
  simp [k8s_launch, hu2, hpod, hphase, hport]

/-- With no pod and no service for the user, `launch` takes the fresh path
with an allocated port and reports `reuse=false`. -/
theorem k8s_launch_fresh_path (s : K8sState) (u : String) (p : Nat)
    (hu : lookup_user s.users u ≠ none)
    (hpod : pod_exists s u = none)
    (hport : get_user_nodeport s u = none)
    (halloc : allocate_nodeport s = .ok p) :
    (k8s_launch s u).1.reuse = some false ∧ (k8s_launch s u).1.port = some p := by
  obtain ⟨user, hu2⟩ := Option.ne_none_iff_exists'.mp hu
  simp [k8s_launch, hu2, hpod, hport, k8s_fresh, halloc]

/-- The inner folder loop of the builder appends one volume and one mount
per folder. -/
theorem foldl_proj_step_eq (base : String) (idx : Nat) :
    ∀ (folders : List String) (acc : List Volume × List VolumeMount),
      folders.foldl (proj_step base idx) acc =
        (acc.1 ++ folders.map (project_volume base idx),
         acc.2 ++ folders.map (project_mount base idx)) := by
  intro folders
  induction folders with
  | nil => intro acc; simp
  | cons f fs ih =>
      intro acc
      rw [List.foldl_cons, ih]
      simp [proj_step]

/-- The outer grant loop of the builder appends the chunk of each
enumerated grant in order. -/
theorem foldl_proj_outer_step_eq :
    ∀ (l : List (Nat × Project)) (acc : List Volume × List VolumeMount),
      l.foldl proj_outer_step acc =
        (acc.1 ++ l.flatMap project_chunk_vols,
         acc.2 ++ l.flatMap project_chunk_mounts) := by
  intro l
  induction l with
  | nil => intro acc; simp
  | cons ip rest ih =>
      intro acc
      rw [List.foldl_cons, ih]
      by_cases hskip : ip.2.base = "" ∨ ip.2.folders = []
      · simp [proj_outer_step, hskip, project_chunk_vols, project_chunk_mounts]
      · simp only [proj_outer_step, hskip, if_neg, foldl_proj_step_eq,
          project_chunk_vols, project_chunk_mounts, List.flatMap_cons]
        simp [hskip]

/-- Closed form of the builder: flat map of the per-grant chunks. -/
theorem build_project_volumes_and_mounts_eq (projects : List Project) :
    build_project_volumes_and_mounts projects =
      (projects.enum.flatMap project_chunk_vols,
       projects.enum.flatMap project_chunk_mounts) := by
  rw [build_project_volumes_and_mounts, foldl_proj_outer_step_eq]
  simp

end Rpod

namespace Rpod.Podman

/-- A successful podman launch always reports `reuse=true` (the success
response hard-codes it). -/
theorem launch_ok_reuse_true (ps : PodmanState) (v : String)
    (h : (launch ps v).1.ok = true) :
    (launch ps v).1.reuse = some true := by
  unfold launch at h ⊢
  cases hl : Rpod.lookup_user ps.users v with
  | none => simp [hl] at h
  | some user =>
      simp only [hl] at h ⊢
      split at h
      · simp_all
      · split at h
        · simp_all
        · simp_all

/-- `ensure_user_home` only touches the filesystem component. -/
theorem ensure_user_home_containers (s : PodmanState) (p : String) :
    (ensure_user_home s p).containers = s.containers := by
  unfold ensure_user_home
  split <;> rfl

/-- When some required path is missing, validation errors with a message
naming the missing paths. -/
theorem validate_required_paths_error_of_missing (fs paths : List String)
    (h : ∃ p ∈ paths, p ∉ fs) :
    ∃ rest, validate_required_paths fs paths =
      .error ("Missing host path(s): " ++ rest) := by
  unfold validate_required_paths
  have hne : (paths.filter (fun p => !(fs.contains p))) ≠ [] := by
    obtain ⟨p, hp, hnp⟩ := h
    intro hempty
    have hmem : p ∈ paths.filter (fun p => !(fs.contains p)) := by
      rw [List.mem_filter]
      exact ⟨hp, by simpa using hnp⟩
    rw [hempty] at hmem
    exact absurd hmem (List.not_mem_nil p)
  have hie : (paths.filter (fun p => !(fs.contains p))).isEmpty = false := by
    cases hc : paths.filter (fun p => !(fs.contains p)) with
    | nil => exact absurd hc hne
    | cons a l => rfl
  simp only [hie]
  exact ⟨_, rfl⟩

/-- Collision handling inside `podman_create_and_start`: exactly one retry;
a running holder is deferred (and the retry fails), a stopped holder is
removed (and the retry succeeds). -/
theorem podman_create_collision (s : PodmanState) (spec : PodmanSpec)
    (c : Container) (hc : container_lookup s spec.name = some c) :
    (podman_create_and_start s spec).attempts = 2 ∧
    (c.status = "running" →
      (podman_create_and_start s spec).deferred = [spec.name] ∧
      ∃ e, (podman_create_and_start s spec).outcome = .error e) ∧
    (c.status ≠ "running" →
      (podman_create_and_start s spec).deferred = [] ∧
      (podman_create_and_start s spec).outcome = .ok spec.name) := by
  have hfilter : container_lookup
      { s with containers := s.containers.filter (fun d => d.name != spec.name) }
      spec.name = none := by
    unfold container_lookup
    rw [List.find?_eq_none]
    intro d hd
    have := (List.mem_filter.mp hd).2
    simpa using this
  by_cases hrun : c.status = "running"
  · have hdel : podman_delete_if_exists s spec.name = (s, [spec.name]) := by
      unfold podman_delete_if_exists
      rw [hc]
      simp [hrun]
    simp only [podman_create_and_start, hc, hdel]
    refine ⟨by trivial, fun _ => ⟨by trivial, ⟨_, by trivial⟩⟩,
      fun h => absurd hrun h⟩
  · have hdel : podman_delete_if_exists s spec.name =
        ({ s with containers := s.containers.filter (fun d => d.name != spec.name) },
         []) := by
      unfold podman_delete_if_exists
      rw [hc]
      simp [hrun]
    simp only [podman_create_and_start, hc, hdel, hfilter]
    refine ⟨by trivial, fun h => absurd h hrun, fun _ => ⟨by trivial, by trivial⟩⟩

/-- A launch that collides with the user's own still-running container
fails with a 500 error after deferring deletion, instead of reusing. -/
theorem podman_launch_running_collision (s : PodmanState) (u : String)
    (user : Rpod.UserCfg) (c : Container)
    (hu : Rpod.lookup_user s.users u = some user)
    (hval : validate_required_paths
      (ensure_user_home s (MOCK ++ "/user_home/" ++ u)).fs
      [MOCK ++ "/Project Center", MOCK ++ "/shared-r-library"] = .ok ())
    (hc : container_lookup s ("rstudio-" ++ u) = some c)
    (hrun : c.status = "running") :
    (launch s u).1.ok = false ∧ (launch s u).1.status = 500 ∧
    (launch s u).1.port = none ∧
    (launch s u).1.deferred = ["rstudio-" ++ u] ∧
    (launch s u).1.createAttempts = 2 := by
  have hc2 : container_lookup (ensure_user_home s (MOCK ++ "/user_home/" ++ u))
      ("rstudio-" ++ u) = some c := by
    unfold container_lookup at hc ⊢
    rw [ensure_user_home_containers]
    exact hc
  have hdel : podman_delete_if_exists
      (ensure_user_home s (MOCK ++ "/user_home/" ++ u)) ("rstudio-" ++ u) =
      (ensure_user_home s (MOCK ++ "/user_home/" ++ u), ["rstudio-" ++ u]) := by
    unfold podman_delete_if_exists
    rw [hc2]
    simp [hrun]
  have hcr : podman_create_and_start
      (ensure_user_home s (MOCK ++ "/user_home/" ++ u))
      (build_podman_spec ("localhost/" ++ IMAGE_NAME) ("rstudio-" ++ u)
        [("USER", u), ("PASSWORD", user.password.getD "arc_default_123"),
         ("TIER", user.tier.getD "tier1"), ("HOME", user.home.getD ("/home/" ++ u))]
        [bind_mount (MOCK ++ "/Project Center") "/mockdir/Project Center" true,
         bind_mount (MOCK ++ "/user_home/" ++ u) (user.home.getD ("/home/" ++ u)) false,
         bind_mount (MOCK ++ "/shared-r-library") "/usr/local/lib/R/site-library" true]
        (TIER_PORTS (user.tier.getD "tier1"))) =
      { outcome := .error ("name " ++ ("rstudio-" ++ u) ++ " already in use"),
        attempts := 2, deferred := ["rstudio-" ++ u],
        state := ensure_user_home s (MOCK ++ "/user_home/" ++ u) } := by
    simp only [podman_create_and_start, build_podman_spec, hc2, hdel]
  simp only [launch, hu, hval, hcr]
  exact ⟨by trivial, by trivial, by trivial, by trivial, by trivial⟩

end Rpod.Podman

namespace Rpod

/-! # Claim theorems -/

/-- C1, counterexample: on the podman backend a launch that takes the
fresh-create path (no container with the derived name exists beforehand,
one create request, no collision) still reports `reuse = true`, because
the success response hard-codes it — refuting "a launch that takes the
fresh-create path returns reuse=false" as stated over both backends. -/
theorem podman_fresh_launch_reports_reuse :
    Podman.container_lookup Podman.podmanFreshState "rstudio-alice" = none ∧
    (Podman.launch Podman.podmanFreshState "alice").1.createAttempts = 1 ∧
    (Podman.launch Podman.podmanFreshState "alice").1.ok = true ∧
    (Podman.launch Podman.podmanFreshState "alice").1.reuse = some true :=
  ⟨rfl, rfl, rfl, rfl⟩

/-- C1 (amended): on the k8s backend, launch is idempotent with respect to
the reuse flag — a running pod with a bound service port is answered with
the same port, `reuse=true` and no backend calls, and the fresh-create
path reports `reuse=false` with the allocated port; the podman backend's
launch instead reports `reuse=true` on every successful response,
including fresh creates. -/
theorem launch_reuse_flag_spec :
    (∀ (s : K8sState) (u : String) (pod : Pod) (p : Nat),
      lookup_user s.users u ≠ none → pod_exists s u = some pod →
      pod.phase = "Running" → get_user_nodeport s u = some p →
      (k8s_launch s u).1.port = some p ∧ (k8s_launch s u).1.reuse = some true ∧
      (k8s_launch s u).2 = s ∧ (k8s_launch s u).1.calls = []) ∧
    (∀ (s : K8sState) (u : String) (p : Nat),
      lookup_user s.users u ≠ none → pod_exists s u = none →
      get_user_nodeport s u = none → allocate_nodeport s = .ok p →
      (k8s_launch s u).1.reuse = some false ∧
      (k8s_launch s u).1.port = some p) ∧
    (∀ (ps : Podman.PodmanState) (v : String),
      (Podman.launch ps v).1.ok = true →
      (Podman.launch ps v).1.reuse = some true) :=
  ⟨k8s_launch_reuse_path, k8s_launch_fresh_path, Podman.launch_ok_reuse_true⟩

/-- C1 witness: the three branches evaluated on concrete states. -/
theorem launch_reuse_flag_spec_witness :
    ((k8s_launch reuseState "alice").1.port = some 30815 ∧
     (k8s_launch reuseState "alice").1.reuse = some true ∧
     (k8s_launch reuseState "alice").2 = reuseState ∧
     (k8s_launch reuseState "alice").1.calls = []) ∧
    ((k8s_launch freshState "alice").1.reuse = some false ∧
     (k8s_launch freshState "alice").1.port = some 30810) ∧
    (Podman.launch Podman.podmanFreshState "alice").1.reuse = some true :=
  ⟨launch_reuse_flag_spec.1 reuseState "alice" alicePodRunning 30815
      (by decide) rfl rfl rfl,
   launch_reuse_flag_spec.2.1 freshState "alice" 30810 (by decide) rfl rfl rfl,
   launch_reuse_flag_spec.2.2 Podman.podmanFreshState "alice" rfl⟩

/-- C2, counterexample: the derived workload name for user `alice` is
`rstudio-alice`, not `session-alice` as the claim states. -/
theorem derived_name_is_rstudio_not_session :
    get_pod_name "alice" = "rstudio-alice" ∧
    get_pod_name "alice" ≠ "session-alice" :=
  ⟨rfl, by decide⟩

/-- C2 (amended): the workload's logical name is derived deterministically
as `rstudio-<username>` (and the derivation is injective, so names are
unique per user). -/
theorem get_pod_name_spec (u v : String) :
    get_pod_name u = "rstudio-" ++ u ∧
    (get_pod_name u = get_pod_name v → u = v) := by
  refine ⟨rfl, fun h => ?_⟩
  have h2 : ("rstudio-" ++ u).data = ("rstudio-" ++ v).data :=
    congrArg String.data h
  simp only [String.data_append] at h2
  exact String.ext (List.append_cancel_left h2)

/-- C2 witness: the derivation evaluated at `alice`. -/
theorem get_pod_name_spec_witness :
    get_pod_name "alice" = "rstudio-" ++ "alice" ∧ ("alice" : String) = "alice" :=
  ⟨(get_pod_name_spec "alice" "alice").1,
   (get_pod_name_spec "alice" "alice").2 rfl⟩

/-- C3: `allocate_nodeport` returns the lowest port of
`[NODEPORT_START, NODEPORT_END]` not among the ports re-derived from the
backend's current exposures by `get_used_nodeports`, and errors (with the
507 `HTTPException`) exactly when every port of the range is in use. -/
theorem allocate_nodeport_spec (s : K8sState) :
    (∀ p : Nat, allocate_nodeport s = .ok p →
      NODEPORT_START ≤ p ∧ p ≤ NODEPORT_END ∧
      p ∉ get_used_nodeports s ∧
      ∀ q, NODEPORT_START ≤ q → q < p → q ∈ get_used_nodeports s) ∧
    ((∃ e, allocate_nodeport s = .error e) ↔
      ∀ q, NODEPORT_START ≤ q → q ≤ NODEPORT_END →
        q ∈ get_used_nodeports s) := by
  constructor
  · intro p hp
    unfold allocate_nodeport at hp
    cases hfind : find_free (get_used_nodeports s) NODEPORT_START
        (NODEPORT_END + 1 - NODEPORT_START) with
    | none => rw [hfind] at hp; cases hp
    | some q =>
        rw [hfind] at hp
        cases hp
        obtain ⟨h1, h2, h3, h4⟩ := find_free_some _ _ _ _ hfind
        exact ⟨h1, by omega, h3, h4⟩
  · constructor
    · rintro ⟨e, he⟩ q hq1 hq2
      unfold allocate_nodeport at he
      cases hfind : find_free (get_used_nodeports s) NODEPORT_START
          (NODEPORT_END + 1 - NODEPORT_START) with
      | some r => rw [hfind] at he; cases he
      | none =>
          exact (find_free_none _ _ _).mp hfind q hq1 (by omega)
    · intro hall
      unfold allocate_nodeport
      cases hfind : find_free (get_used_nodeports s) NODEPORT_START
          (NODEPORT_END + 1 - NODEPORT_START) with
      | none => exact ⟨_, rfl⟩
      | some r =>
          obtain ⟨h1, h2, h3, h4⟩ := find_free_some _ _ _ _ hfind
          exact absurd (hall r h1 (by omega)) h3

/-- C3 witness: with 30810 held by a live exposure, the allocator hands out
30811 — in range, free, and every lower in-range port is in use. -/
theorem allocate_nodeport_spec_witness :
    NODEPORT_START ≤ 30811 ∧ 30811 ≤ NODEPORT_END ∧
    30811 ∉ get_used_nodeports oneBusyPortState ∧
    ∀ q, NODEPORT_START ≤ q → q < 30811 →
      q ∈ get_used_nodeports oneBusyPortState :=
  (allocate_nodeport_spec oneBusyPortState).1 30811 rfl

/-- C4 (code bug evidence): with the whole NodePort range held by other
users, `allocate_nodeport` raises the 507 `HTTPException`, but the launch
endpoint's blanket `except Exception` converts it into a status-500 JSON
error whose message is `str(e)` — the caller never sees a 507 status. -/
theorem exhausted_launch_returns_500 :
    allocate_nodeport allPortsBusyState =
      .error (HErr.http 507 "No available NodePorts") ∧
    (k8s_launch allPortsBusyState "bob").1.ok = false ∧
    (k8s_launch allPortsBusyState "bob").1.status = 500 ∧
    (k8s_launch allPortsBusyState "bob").1.error =
      some "507: No available NodePorts" :=
  ⟨rfl, rfl, rfl, rfl⟩

/-- C5, counterexample: when listing services raises, `get_used_nodeports`
swallows the failure and returns the empty list, so `allocate_nodeport`
proceeds as if no port were in use and returns 30810 — the very port bound
by a live exposure in the same state (without the failure it would return
30811). -/
theorem svc_list_failure_not_surfaced :
    listFailState.svcListFails = true ∧
    listFailState.services =
      [{ name := "rstudio-svc-zed", svcType := "NodePort",
         ports := [{ node_port := some 30810 }] }] ∧
    get_used_nodeports listFailState = [] ∧
    allocate_nodeport listFailState = .ok 30810 ∧
    allocate_nodeport { listFailState with svcListFails := false } =
      .ok 30811 :=
  ⟨rfl, rfl, rfl, rfl, rfl⟩

/-- C5 (amended): a backend failure while querying live exposures is
swallowed — `get_used_nodeports` logs and returns the empty list, so
allocation proceeds as if no ports were in use and hands out the first
port of the range. -/
theorem svc_list_failure_empties_used_ports (s : K8sState)
    (h : s.svcListFails = true) :
    get_used_nodeports s = [] ∧ allocate_nodeport s = .ok NODEPORT_START := by
  have h1 : get_used_nodeports s = [] := by simp [get_used_nodeports, h]
  refine ⟨h1, ?_⟩
  unfold allocate_nodeport
  rw [h1]
  rfl

/-- C5 witness: the amended behaviour evaluated on the failing state. -/
theorem svc_list_failure_empties_used_ports_witness :
    get_used_nodeports listFailState = [] ∧
    allocate_nodeport listFailState = .ok NODEPORT_START :=
  svc_list_failure_empties_used_ports listFailState rfl

end Rpod

namespace Rpod

/-- C6, counterexample: the k8s backend's launch performs no host-path
validation at all — on a host filesystem containing neither shared root,
launch still succeeds, issues the pod create call and leaves a workload
under the derived name, instead of failing with a missing-host-path error
before any backend call (path existence is only enforced later by the
kubelet through the `hostPath` type `Directory`). -/
theorem k8s_launch_creates_without_path_validation :
    PROJECT_CENTER_PATH ∉ noRootsHostFs ∧ SHARED_RLIB_PATH ∉ noRootsHostFs ∧
    (k8s_launch freshState "alice").1.ok = true ∧
    (k8s_launch freshState "alice").1.error = none ∧
    BackendCall.createPod "rstudio-alice" ∈
      (k8s_launch freshState "alice").1.calls ∧
    pod_exists (k8s_launch freshState "alice").2 "alice" =
      some (created_pod "alice") :=
  ⟨by decide, by decide, rfl, rfl, by decide, rfl⟩

end Rpod

namespace Rpod.Podman

/-- C6 (amended, podman backend): when the shared project root or the
shared library host path does not exist after the user home is ensured,
launch fails with status 500 naming the missing host path(s), makes no
backend create call, and no container is created. -/
theorem missing_path_aborts_launch (s : PodmanState) (u : String)
    (user : Rpod.UserCfg)
    (hu : Rpod.lookup_user s.users u = some user)
    (hmiss : (MOCK ++ "/Project Center") ∉
        (ensure_user_home s (MOCK ++ "/user_home/" ++ u)).fs ∨
      (MOCK ++ "/shared-r-library") ∉
        (ensure_user_home s (MOCK ++ "/user_home/" ++ u)).fs) :
    (launch s u).1.status = 500 ∧ (launch s u).1.ok = false ∧
    (launch s u).1.createAttempts = 0 ∧
    (∃ rest, (launch s u).1.error = some ("Missing host path(s): " ++ rest)) ∧
    (launch s u).2.containers = s.containers := by
  have hval := validate_required_paths_error_of_missing
    (ensure_user_home s (MOCK ++ "/user_home/" ++ u)).fs
    [MOCK ++ "/Project Center", MOCK ++ "/shared-r-library"]
    (by rcases hmiss with hm | hm
        · exact ⟨_, by simp, hm⟩
        · exact ⟨_, by simp, hm⟩)
  obtain ⟨rest, hval⟩ := hval
  simp only [launch, hu, hval]
  exact ⟨by trivial, by trivial, by trivial, ⟨rest, by trivial⟩,
    ensure_user_home_containers s _⟩

/-- C6 witness: the abort evaluated on a state with no host roots. -/
theorem missing_path_aborts_launch_witness :
    (launch missingPathState "alice").1.status = 500 ∧
    (launch missingPathState "alice").1.ok = false ∧
    (launch missingPathState "alice").1.createAttempts = 0 ∧
    (∃ rest, (launch missingPathState "alice").1.error =
      some ("Missing host path(s): " ++ rest)) ∧
    (launch missingPathState "alice").2.containers =
      missingPathState.containers :=
  missing_path_aborts_launch missingPathState "alice" Rpod.userTier1 rfl
    (Or.inl (by decide))

/-- C7, counterexample: launching while the user's own container is still
running collides on the name, defers the deletion as the claim says — but
the retried create collides again, so the launch returns a status-500
error with no port, instead of completing with the reused port. -/
theorem running_collision_launch_fails :
    container_lookup runningCollisionState "rstudio-bob" =
      some { name := "rstudio-bob", status := "running" } ∧
    (launch runningCollisionState "bob").1.ok = false ∧
    (launch runningCollisionState "bob").1.status = 500 ∧
    (launch runningCollisionState "bob").1.port = none ∧
    (launch runningCollisionState "bob").1.reuse = none ∧
    (launch runningCollisionState "bob").1.deferred = ["rstudio-bob"] ∧
    (launch runningCollisionState "bob").1.createAttempts = 2 :=
  ⟨rfl, rfl, rfl, rfl, rfl, rfl, rfl⟩

/-- C7 (amended): a name collision from `create_and_start` triggers
delete-then-retry-exactly-once; a stopped holder is removed and the retry
succeeds, while a running holder only gets a deferred (scheduled) deletion
and the retry collides again, so the launch surfaces a 500 error rather
than returning the reused port. -/
theorem collision_delete_retry_policy :
    (∀ (s : PodmanState) (spec : PodmanSpec) (c : Container),
      container_lookup s spec.name = some c →
      (podman_create_and_start s spec).attempts = 2 ∧
      (c.status = "running" →
        (podman_create_and_start s spec).deferred = [spec.name] ∧
        ∃ e, (podman_create_and_start s spec).outcome = .error e) ∧
      (c.status ≠ "running" →
        (podman_create_and_start s spec).deferred = [] ∧
        (podman_create_and_start s spec).outcome = .ok spec.name)) ∧
    (∀ (s : PodmanState) (u : String) (user : Rpod.UserCfg) (c : Container),
      Rpod.lookup_user s.users u = some user →
      validate_required_paths
        (ensure_user_home s (MOCK ++ "/user_home/" ++ u)).fs
        [MOCK ++ "/Project Center", MOCK ++ "/shared-r-library"] = .ok () →
      container_lookup s ("rstudio-" ++ u) = some c →
      c.status = "running" →
      (launch s u).1.ok = false ∧ (launch s u).1.status = 500 ∧
      (launch s u).1.port = none ∧
      (launch s u).1.deferred = ["rstudio-" ++ u] ∧
      (launch s u).1.createAttempts = 2) :=
  ⟨podman_create_collision, podman_launch_running_collision⟩

/-- C7 witness: the stopped-holder retry succeeding and the running-holder
launch failing, on concrete states. -/
theorem collision_delete_retry_policy_witness :
    ((podman_create_and_start stoppedCollisionState demoSpec).deferred = [] ∧
     (podman_create_and_start stoppedCollisionState demoSpec).outcome =
       .ok demoSpec.name) ∧
    ((launch runningCollisionState "bob").1.ok = false ∧
     (launch runningCollisionState "bob").1.status = 500 ∧
     (launch runningCollisionState "bob").1.port = none ∧
     (launch runningCollisionState "bob").1.deferred = ["rstudio-bob"] ∧
     (launch runningCollisionState "bob").1.createAttempts = 2) :=
  ⟨(collision_delete_retry_policy.1 stoppedCollisionState demoSpec
      { name := "rstudio-bob", status := "exited" } rfl).2.2 (by decide),
   collision_delete_retry_policy.2 runningCollisionState "bob" Rpod.userTier1
      { name := "rstudio-bob", status := "running" } rfl rfl rfl rfl⟩

end Rpod.Podman

namespace Rpod

/-- C8: one reaper cycle handles every listed `app=rstudio` pod (one event
per pod, in order, each depending only on that pod and the failure
behaviour of its own delete calls, so one failed reap never halts the loop
or affects other sessions); a pod whose age exceeds the maximum lifetime
has its pod and service deleted (when the deletes do not raise), and a pod
inside the 30-minute warning band only gets a warning log, never a
teardown. -/
theorem cleanup_cycle_spec (podFails svcFails : String → Bool)
    (pods : List Pod) :
    (cleanup_cycle podFails svcFails pods).length =
      (pods.filter (fun p => p.appLabel == "rstudio")).length ∧
    (∀ (i : Nat) (pod : Pod),
      (pods.filter (fun p => p.appLabel == "rstudio"))[i]? = some pod →
      (cleanup_cycle podFails svcFails pods)[i]? =
        some (reap_step podFails svcFails pod)) ∧
    (∀ pod : Pod, pod.age > MAX_SESSION_DURATION →
      podFails pod.name = false → svcFails (reap_svc_name pod) = false →
      reap_step podFails svcFails pod = .reaped pod.name (reap_svc_name pod)) ∧
    (∀ pod : Pod, MAX_SESSION_DURATION - 1800 < pod.age →
      pod.age ≤ MAX_SESSION_DURATION →
      reap_step podFails svcFails pod =
        .warned (pod.userLabel.getD "unknown")) ∧
    (∀ (podFails2 svcFails2 : String → Bool) (pod : Pod),
      podFails pod.name = podFails2 pod.name →
      svcFails (reap_svc_name pod) = svcFails2 (reap_svc_name pod) →
      reap_step podFails svcFails pod = reap_step podFails2 svcFails2 pod) := by
  refine ⟨by simp [cleanup_cycle], ?_, ?_, ?_, ?_⟩
  · intro i pod h
    simp [cleanup_cycle, h]
  · intro pod h1 h2 h3
    simp [reap_step, h1, h2, h3]
  · intro pod h1 h2
    have hM : MAX_SESSION_DURATION = 43200 := rfl
    rw [hM] at h1 h2
    rw [reap_step, if_neg (by simp [hM]; omega), if_pos (by simp [hM]; omega)]
  · intro f2 g2 pod h1 h2
    rw [reap_step, reap_step, h1, h2]

/-- C8 witness: a cycle over an expired session and a warning-band session
with never-failing deletes. -/
theorem cleanup_cycle_spec_witness :
    (cleanup_cycle (fun _ => false) (fun _ => false)
      [expiredPod, warnBandPod]).length =
      ([expiredPod, warnBandPod].filter
        (fun p => p.appLabel == "rstudio")).length ∧
    reap_step (fun _ => false) (fun _ => false) expiredPod =
      .reaped expiredPod.name (reap_svc_name expiredPod) ∧
    reap_step (fun _ => false) (fun _ => false) warnBandPod =
      .warned (warnBandPod.userLabel.getD "unknown") :=
  ⟨(cleanup_cycle_spec (fun _ => false) (fun _ => false)
      [expiredPod, warnBandPod]).1,
   (cleanup_cycle_spec (fun _ => false) (fun _ => false)
      [expiredPod, warnBandPod]).2.2.1 expiredPod (by decide) rfl rfl,
   (cleanup_cycle_spec (fun _ => false) (fun _ => false)
      [expiredPod, warnBandPod]).2.2.2.1 warnBandPod (by decide) (by decide)⟩

/-- C9, counterexample: two distinct folders of the same grant, `a.b` and
`a b`, sanitize to the same volume name `proj-p-0-a-b` — the generated
names are not collision-free, though both read-write mounts at their
distinct destination paths are emitted. -/
theorem project_volume_name_collision :
    ((build_project_volumes_and_mounts
        [{ base := "p", folders := ["a.b", "a b"] }]).2.map
      (fun m => m.name)) = ["proj-p-0-a-b", "proj-p-0-a-b"] ∧
    ((build_project_volumes_and_mounts
        [{ base := "p", folders := ["a.b", "a b"] }]).2.map
      (fun m => m.mountPath)) =
      ["/project-center/p/a.b", "/project-center/p/a b"] ∧
    ("a.b" : String) ≠ "a b" :=
  ⟨rfl, rfl, by decide⟩

/-- C9 (amended): the builder emits exactly one read-write mount per
(base, folder) pair of every grant with a nonempty base and folder list,
at destination `/project-center/<base>/<folder>`, named by the sanitized
`proj-<base>-<idx>-<folder>` scheme (the sanitization is deterministic but
not injective, so names can collide); grants with an empty base or empty
folder list are skipped without error. -/
theorem build_project_mounts_spec (projects : List Project) :
    (∀ m : VolumeMount, m ∈ (build_project_volumes_and_mounts projects).2 ↔
      ∃ ip ∈ projects.enum, ip.2.base ≠ "" ∧
        ∃ folder ∈ ip.2.folders, m = project_mount ip.2.base ip.1 folder) ∧
    (∀ m ∈ (build_project_volumes_and_mounts projects).2,
      m.read_only = false) ∧
    ((build_project_volumes_and_mounts projects).2.length =
      (projects.enum.map (fun ip =>
        if ip.2.base = "" ∨ ip.2.folders = [] then 0
        else ip.2.folders.length)).sum) := by
  have hmem : ∀ m : VolumeMount,
      m ∈ (build_project_volumes_and_mounts projects).2 ↔
      ∃ ip ∈ projects.enum, ip.2.base ≠ "" ∧
        ∃ folder ∈ ip.2.folders, m = project_mount ip.2.base ip.1 folder := by
    intro m
    rw [build_project_volumes_and_mounts_eq]
    simp only [List.mem_flatMap]
    constructor
    · rintro ⟨ip, hip, hm⟩
      by_cases hskip : ip.2.base = "" ∨ ip.2.folders = []
      · simp [project_chunk_mounts, hskip] at hm
      · rw [project_chunk_mounts, if_neg hskip] at hm
        obtain ⟨folder, hf, hfm⟩ := List.mem_map.mp hm
        push_neg at hskip
        exact ⟨ip, hip, hskip.1, folder, hf, hfm.symm⟩
    · rintro ⟨ip, hip, hbase, folder, hf, hm⟩
      refine ⟨ip, hip, ?_⟩
      have hne : ¬(ip.2.base = "" ∨ ip.2.folders = []) := by
        push_neg
        exact ⟨hbase, List.ne_nil_of_mem hf⟩
      rw [project_chunk_mounts, if_neg hne]
      exact List.mem_map.mpr ⟨folder, hf, hm.symm⟩
  refine ⟨hmem, ?_, ?_⟩
  · intro m hm
    obtain ⟨ip, _, _, folder, _, hm2⟩ := (hmem m).mp hm
    rw [hm2]
    rfl
  · rw [build_project_volumes_and_mounts_eq, List.length_flatMap]
    congr 1
    apply List.map_congr_left
    intro ip _
    simp only [Function.comp, project_chunk_mounts]
    split
    · rfl
    · rw [List.length_map]

/-- C9 witness: the mount of the non-skipped demo grant is read-write. -/
theorem build_project_mounts_spec_witness :
    (project_mount "Gene Lab" 1 "data.raw").read_only = false :=
  (build_project_mounts_spec demoProjects).2.1
    (project_mount "Gene Lab" 1 "data.raw") (by decide)

/-- C10: a running pod without any exposure does not take the reuse path —
launch deletes the running pod, allocates a fresh port, and recreates pod
and service, answering `reuse=false` with the newly allocated port. -/
theorem running_pod_without_service_recreated (s : K8sState) (u : String)
    (pod : Pod) (p : Nat)
    (hu : lookup_user s.users u ≠ none)
    (hpod : pod_exists s u = some pod)
    (hphase : pod.phase = "Running")
    (hport : get_user_nodeport s u = none)
    (halloc : allocate_nodeport s = .ok p) :
    (k8s_launch s u).1.ok = true ∧
    (k8s_launch s u).1.reuse = some false ∧
    (k8s_launch s u).1.port = some p ∧
    (k8s_launch s u).1.calls =
      [.deletePod (get_pod_name u), .createPod (get_pod_name u),
       .createService (get_service_name u) p] := by
  obtain ⟨user, hu2⟩ := Option.ne_none_iff_exists'.mp hu
  have halloc2 : allocate_nodeport (delete_pod s u) = .ok p := halloc
  simp [k8s_launch, hu2, hpod, hphase, hport, k8s_fresh, halloc2]

/-- C10 witness: alice's running pod with no service is deleted and
recreated on the freshly allocated port 30810. -/
theorem running_pod_without_service_recreated_witness :
    (k8s_launch runningNoSvcState "alice").1.ok = true ∧
    (k8s_launch runningNoSvcState "alice").1.reuse = some false ∧
    (k8s_launch runningNoSvcState "alice").1.port = some 30810 ∧
    (k8s_launch runningNoSvcState "alice").1.calls =
      [.deletePod (get_pod_name "alice"), .createPod (get_pod_name "alice"),
       .createService (get_service_name "alice") 30810] :=
  running_pod_without_service_recreated runningNoSvcState "alice"
    alicePodRunning 30810 (by decide) rfl rfl rfl rfl

end Rpod
